import Mathlib

/-!
Verification of the on-chain Identity & Verification Registry
(`blockchain/contracts/DeepfakeVerification.sol`).

The contract is embedded as a pure state machine: contract storage becomes
the `State` structure, `msg.sender` and `block.timestamp` become explicit
arguments, and every external function becomes a Lean function returning
`Except String State` (`.error msg` models a `require`-revert carrying the
contract's reason string; a reverted call leaves the pre-state in force).

The two cryptographic primitives the contract consumes — `keccak256` and
`ecrecover` — are taken as function parameters (`keccak : List Nat → Nat`
over byte lists, `ecrecover : digest → v → r → s → Address`, returning the
zero address on recovery failure exactly as the EVM precompile does).
Everything else (ABI packed encoding, the Ethereum signed-message prefix,
the byte-level parsing of the 65-byte signature) is embedded concretely.
-/

namespace DeepfakeVerification

/-- Account addresses; `0` is the zero address `address(0)`. -/
abbrev Address := Nat

/-- `bytes32` values, as natural numbers below `2 ^ 256` (the claims that
depend on the width carry the bound as an explicit hypothesis). -/
abbrev Bytes32 := Nat

/-- DID Document structure (struct `DIDDocument`). -/
structure DIDDocument where
  owner : Address
  did : String
  publicKeyBase58 : String
  isActive : Bool
  createdAt : Nat
  updatedAt : Nat
deriving DecidableEq, Repr

/-- Verification Result structure (struct `VerificationResult`). -/
structure VerificationResult where
  imageHash : Bytes32
  subjectDid : String
  issuerDid : String
  isReal : Bool
  confidence : Nat
  timestamp : Nat
  credentialHash : Bytes32
deriving DecidableEq, Repr

/-- ZK Proof structure (struct `ZKProof`). -/
structure ZKProof where
  proofHash : Bytes32
  publicInputHash : Bytes32
  isValid : Bool
  timestamp : Nat
deriving DecidableEq, Repr

/-- Solidity default (all-zero) `DIDDocument`, the value of an unwritten
mapping slot. -/
def emptyDoc : DIDDocument := ⟨0, "", "", false, 0, 0⟩

/-- Solidity default (all-zero) `VerificationResult`. -/
def emptyVerification : VerificationResult := ⟨0, "", "", false, 0, 0, 0⟩

/-- Solidity default (all-zero) `ZKProof`. -/
def emptyZKProof : ZKProof := ⟨0, 0, false, 0⟩

/-- Contract storage of `DeepfakeVerification`. -/
structure State where
  didDocuments : Address → DIDDocument
  didToAddress : String → Address
  verificationResults : Bytes32 → VerificationResult
  zkProofs : Bytes32 → ZKProof
  authorizedIssuers : Address → Bool
  owner : Address
  oracleSigner : Address
  totalDIDs : Nat
  totalVerifications : Nat

/-- `require(cond, msg)` followed by the continuation `k`: if `cond` holds
the call continues, otherwise the whole call reverts with `msg`. -/
def require {α : Type} (cond : Prop) [Decidable cond] (msg : String)
    (k : Except String α) : Except String α :=
  if cond then k else .error msg

/-- The `constructor(address _oracleSigner)`: sets `owner` and
`oracleSigner` and authorizes the deployer as issuer.  Note that it does
not reject a zero `_oracleSigner`. -/
def constructor (sender : Address) (_oracleSigner : Address) : State :=
  { didDocuments := fun _ => emptyDoc
    didToAddress := fun _ => 0
    verificationResults := fun _ => emptyVerification
    zkProofs := fun _ => emptyZKProof
    authorizedIssuers := Function.update (fun _ => false) sender true
    owner := sender
    oracleSigner := _oracleSigner
    totalDIDs := 0
    totalVerifications := 0 }

/-- `setOracleSigner(address _newSigner)`, `onlyOwner`. -/
def setOracleSigner (s : State) (sender : Address) (_newSigner : Address) :
    Except String State :=
  require (sender = s.owner) "Only owner can call this function" <|
  require (_newSigner ≠ 0) "Invalid signer address" <|
  .ok { s with oracleSigner := _newSigner }

/-- `registerDID(string _did, string _publicKeyBase58)`. -/
def registerDID (s : State) (sender : Address) (ts : Nat)
    (_did _publicKeyBase58 : String) : Except String State :=
  require ((s.didDocuments sender).isActive = false) "DID already registered" <|
  require (s.didToAddress _did = 0) "DID already taken" <|
  require (_did ≠ "") "DID cannot be empty" <|
  require (_publicKeyBase58 ≠ "") "Public key cannot be empty" <|
  .ok { s with
    didDocuments := Function.update s.didDocuments sender
      ⟨sender, _did, _publicKeyBase58, true, ts, ts⟩
    didToAddress := Function.update s.didToAddress _did sender
    totalDIDs := s.totalDIDs + 1 }

/-- `updateDIDPublicKey(string _newPublicKeyBase58)`, modifier
`didExists(msg.sender)`. -/
def updateDIDPublicKey (s : State) (sender : Address) (ts : Nat)
    (_newPublicKeyBase58 : String) : Except String State :=
  require ((s.didDocuments sender).isActive = true)
      "DID does not exist or is deactivated" <|
  require (_newPublicKeyBase58 ≠ "") "Public key cannot be empty" <|
  .ok { s with
    didDocuments := Function.update s.didDocuments sender
      { s.didDocuments sender with publicKeyBase58 := _newPublicKeyBase58, updatedAt := ts } }

/-- `deactivateDID()`, modifier `didExists(msg.sender)`: flips `isActive`,
bumps `updatedAt` and deletes the reverse index entry. -/
def deactivateDID (s : State) (sender : Address) (ts : Nat) :
    Except String State :=
  require ((s.didDocuments sender).isActive = true)
      "DID does not exist or is deactivated" <|
  .ok { s with
    didDocuments := Function.update s.didDocuments sender
      { s.didDocuments sender with isActive := false, updatedAt := ts }
    didToAddress := Function.update s.didToAddress ((s.didDocuments sender).did) 0 }

/-- Big-endian byte-list value (the number denoted by a `bytes32` slice,
as read by the contract's inline assembly `mload`). -/
def beBytesToNat : List Nat → Nat
  | [] => 0
  | b :: l => b * 256 ^ l.length + beBytesToNat l

/-- The `w`-byte big-endian encoding of a natural number (truncating to
the low `w` bytes, as a Solidity `bytes32` cast does). -/
def natToBeBytes : Nat → Nat → List Nat
  | 0, _ => []
  | w + 1, n => n / 256 ^ w % 256 :: natToBeBytes w n

/-- `abi.encodePacked(bytes32 _imageHash, bool _isReal, uint256 _confidence)`:
32 bytes, one `0x01`/`0x00` byte, 32 bytes. -/
def encodePacked (_imageHash : Bytes32) (_isReal : Bool) (_confidence : Nat) :
    List Nat :=
  natToBeBytes 32 _imageHash ++ [if _isReal then 1 else 0] ++ natToBeBytes 32 _confidence

/-- UTF-8 bytes of the domain-separation prefix
"\x19Ethereum Signed Message:\n32". -/
def ethPrefix : List Nat :=
  [0x19, 69, 116, 104, 101, 114, 101, 117, 109, 32, 83, 105, 103, 110, 101,
   100, 32, 77, 101, 115, 115, 97, 103, 101, 58, 10, 51, 50]

/-- The digest `recordVerification` asks the oracle to have signed:
`keccak256("\x19Ethereum Signed Message:\n32" ‖ keccak256(abi.encodePacked(
_imageHash, _isReal, _confidence)))`. -/
def oracleDigest (keccak : List Nat → Nat) (_imageHash : Bytes32)
    (_isReal : Bool) (_confidence : Nat) : Nat :=
  keccak (ethPrefix ++ natToBeBytes 32 (keccak (encodePacked _imageHash _isReal _confidence)))

/-- `recoverSigner(bytes32 _ethSignedHash, bytes _signature)`: requires a
65-byte signature, splits it into `r ‖ s ‖ v`, normalizes `v` by `+27`
when below 27, requires `v ∈ {27, 28}` and returns the raw `ecrecover`
output (the zero address when recovery fails — there is no zero check). -/
def recoverSigner (ecrecover : Nat → Nat → Nat → Nat → Address)
    (_ethSignedHash : Nat) (_signature : List Nat) : Except String Address :=
  require (_signature.length = 65) "Invalid signature length" <|
  let r := beBytesToNat (_signature.take 32)
  let sVal := beBytesToNat ((_signature.drop 32).take 32)
  let v0 := beBytesToNat (_signature.drop 64)
  let v := if v0 < 27 then v0 + 27 else v0
  require (v = 27 ∨ v = 28) "Invalid signature v value" <|
  .ok (ecrecover _ethSignedHash v r sVal)

/-- `recordVerification(bytes32, string, bool, uint256, bytes32, bytes)`,
modifier `didExists(msg.sender)`: validates the inputs, authenticates the
oracle signature over `(imageHash, isReal, confidence)` and stores the
record (unconditionally overwriting any existing one), incrementing
`totalVerifications`. -/
def recordVerification (keccak : List Nat → Nat)
    (ecrecover : Nat → Nat → Nat → Nat → Address)
    (s : State) (sender : Address) (ts : Nat)
    (_imageHash : Bytes32) (_subjectDid : String) (_isReal : Bool)
    (_confidence : Nat) (_credentialHash : Bytes32) (_signature : List Nat) :
    Except String State :=
  require ((s.didDocuments sender).isActive = true)
      "DID does not exist or is deactivated" <|
  require (_imageHash ≠ 0) "Image hash cannot be empty" <|
  require (_confidence ≤ 10000) "Confidence must be <= 10000" <|
  (recoverSigner ecrecover (oracleDigest keccak _imageHash _isReal _confidence)
      _signature).bind fun recoveredSigner =>
  require (recoveredSigner = s.oracleSigner) "Invalid oracle signature" <|
  .ok { s with
    verificationResults := Function.update s.verificationResults _imageHash
      ⟨_imageHash, _subjectDid, (s.didDocuments sender).did, _isReal,
       _confidence, ts, _credentialHash⟩
    totalVerifications := s.totalVerifications + 1 }

/-- `submitZKProof(bytes32 _imageHash, bytes32 _proofHash, bytes32
_publicInputHash)`: note that `_publicInputHash` is not validated. -/
def submitZKProof (s : State) (ts : Nat)
    (_imageHash _proofHash _publicInputHash : Bytes32) : Except String State :=
  require (_imageHash ≠ 0) "Image hash cannot be empty" <|
  require (_proofHash ≠ 0) "Proof hash cannot be empty" <|
  .ok { s with
    zkProofs := Function.update s.zkProofs _imageHash
      ⟨_proofHash, _publicInputHash, false, ts⟩ }

/-- `verifyZKProof(bytes32 _imageHash, bytes32 _expectedProofHash)` (view):
requires an existing commitment and returns the hash-equality check. -/
def verifyZKProof (s : State) (_imageHash _expectedProofHash : Bytes32) :
    Except String Bool :=
  require (0 < (s.zkProofs _imageHash).timestamp) "ZK Proof not found" <|
  .ok (decide ((s.zkProofs _imageHash).proofHash = _expectedProofHash))

/-- `getVerification(bytes32 _imageHash)` (view). -/
def getVerification (s : State) (_imageHash : Bytes32) :
    Except String VerificationResult :=
  require (0 < (s.verificationResults _imageHash).timestamp) "Verification not found" <|
  .ok (s.verificationResults _imageHash)

/-- `isImageVerified(bytes32 _imageHash)` (view). -/
def isImageVerified (s : State) (_imageHash : Bytes32) : Bool :=
  decide (0 < (s.verificationResults _imageHash).timestamp)

/-- `authorizeIssuer(address _issuer)`, `onlyOwner`. -/
def authorizeIssuer (s : State) (sender : Address) (_issuer : Address) :
    Except String State :=
  require (sender = s.owner) "Only owner can call this function" <|
  require (s.authorizedIssuers _issuer = false) "Already authorized" <|
  .ok { s with authorizedIssuers := Function.update s.authorizedIssuers _issuer true }

/-- `revokeIssuer(address _issuer)`, `onlyOwner`: cannot revoke the owner. -/
def revokeIssuer (s : State) (sender : Address) (_issuer : Address) :
    Except String State :=
  require (sender = s.owner) "Only owner can call this function" <|
  require (s.authorizedIssuers _issuer = true) "Not authorized" <|
  require (_issuer ≠ s.owner) "Cannot revoke owner" <|
  .ok { s with authorizedIssuers := Function.update s.authorizedIssuers _issuer false }

/-- `transferOwnership(address _newOwner)`, `onlyOwner`: de-authorizes the
outgoing owner, installs the new owner and authorizes it, in one step. -/
def transferOwnership (s : State) (sender : Address) (_newOwner : Address) :
    Except String State :=
  require (sender = s.owner) "Only owner can call this function" <|
  require (_newOwner ≠ 0) "Invalid address" <|
  .ok { s with
    authorizedIssuers :=
      Function.update (Function.update s.authorizedIssuers s.owner false) _newOwner true
    owner := _newOwner }

/-- One external state-mutating call to the contract (the view functions
mutate nothing and are omitted). -/
inductive Op
  | setOracleSigner (newSigner : Address)
  | registerDID (did pk : String)
  | updateDIDPublicKey (pk : String)
  | deactivateDID
  | recordVerification (imageHash : Bytes32) (subjectDid : String)
      (isReal : Bool) (confidence : Nat) (credentialHash : Bytes32)
      (signature : List Nat)
  | submitZKProof (imageHash proofHash publicInputHash : Bytes32)
  | authorizeIssuer (issuer : Address)
  | revokeIssuer (issuer : Address)
  | transferOwnership (newOwner : Address)

/-- Dispatch one external call against the contract state. -/
def dispatch (keccak : List Nat → Nat)
    (ecrecover : Nat → Nat → Nat → Nat → Address)
    (s : State) (sender : Address) (ts : Nat) : Op → Except String State
  | .setOracleSigner n => setOracleSigner s sender n
  | .registerDID d pk => registerDID s sender ts d pk
  | .updateDIDPublicKey pk => updateDIDPublicKey s sender ts pk
  | .deactivateDID => deactivateDID s sender ts
  | .recordVerification h subj b c cred sig =>
      recordVerification keccak ecrecover s sender ts h subj b c cred sig
  | .submitZKProof h p pin => submitZKProof s ts h p pin
  | .authorizeIssuer i => authorizeIssuer s sender i
  | .revokeIssuer i => revokeIssuer s sender i
  | .transferOwnership n => transferOwnership s sender n

/-- EVM execution of one call: a successful call installs the new state, a
reverted call leaves the state exactly as it was. -/
def exec (keccak : List Nat → Nat)
    (ecrecover : Nat → Nat → Nat → Nat → Address)
    (s : State) (sender : Address) (ts : Nat) (op : Op) : State :=
  match dispatch keccak ecrecover s sender ts op with
  | .ok s' => s'
  | .error _ => s

/-- One successful external call takes `s` to `s'`, by some caller (the
EVM guarantees `msg.sender ≠ address(0)`), at some block timestamp, under
some choice of the cryptographic primitives — so this over-approximates
the steps possible with the real `keccak256`/`ecrecover`. -/
def StepTo (s s' : State) : Prop :=
  ∃ (keccak : List Nat → Nat) (ecrecover : Nat → Nat → Nat → Nat → Address)
    (sender : Address) (ts : Nat) (op : Op),
    sender ≠ 0 ∧ dispatch keccak ecrecover s sender ts op = .ok s'

/-- States reachable from deployment by successful external calls. -/
inductive Reachable : State → Prop
  | init (sender oracle : Address) : sender ≠ 0 → Reachable (constructor sender oracle)
  | step (s s' : State) : Reachable s → StepTo s s' → Reachable s'

/-- The forward/reverse DID index invariant: every active document of a
non-zero account is indexed back to that account under its (non-empty)
DID string. -/
def DidInv (s : State) : Prop :=
  ∀ a : Address, a ≠ 0 → (s.didDocuments a).isActive = true →
    s.didToAddress ((s.didDocuments a).did) = a ∧ (s.didDocuments a).did ≠ ""

/-! ### Concrete instances used to exercise the theorems

The cryptographic primitives are abstract parameters of the embedding;
the following computable stand-ins realize, at the specific inputs where
they are used, the facts the theorems assume of the real primitives
(distinct hash values on the distinct inputs involved, in-range outputs,
recovery succeeding exactly at one digest, recovery failing with a zero
address). -/

/-- A computable hash with outputs below `2 ^ 256`. -/
def kecc0 : List Nat → Nat := fun l => beBytesToNat l % (2 ^ 256 - 1)

/-- The digest of the tuple `(1, true, 5)` under `kecc0`. -/
def D0 : Nat := oracleDigest kecc0 1 true 5

/-- A recovery function modelling a signature that authenticates address
`5` exactly at the digest `D0` with `r = 7`, `s = 9`, and fails (returning
the zero address, as the EVM `ecrecover` precompile does) elsewhere. -/
def ecrec0 : Nat → Nat → Nat → Nat → Address :=
  fun d _ r sv => if d = D0 ∧ r = 7 ∧ sv = 9 then 5 else 0

/-- A recovery function that always fails, returning the zero address
(the EVM `ecrecover` output on any invalid signature, e.g. `r = s = 0`). -/
def ecrecZero : Nat → Nat → Nat → Nat → Address := fun _ _ _ _ => 0

/-- A recovery function modelling an oracle key whose signatures are
available for every digest used: recovery always yields address `5`. -/
def ecrecAll5 : Nat → Nat → Nat → Nat → Address := fun _ _ _ _ => 5

/-- A well-formed 65-byte signature with `r = 7`, `s = 9`, `v = 27`. -/
def sig0 : List Nat :=
  List.replicate 31 0 ++ [7] ++ List.replicate 31 0 ++ [9] ++ [27]

/-- The all-zero 65-byte signature (`r = s = 0`, `v` byte `0`, normalized
to `27`): a format-valid signature on which real recovery fails. -/
def sigZero : List Nat := List.replicate 65 0

/-- Deployment by account `1` with oracle signer `5`. -/
def S0 : State := constructor 1 5

/-- `S0` after account `2` registered DID `"did:x:1"` at time `100`. -/
def SA : State :=
  { S0 with
    didDocuments := Function.update S0.didDocuments 2 ⟨2, "did:x:1", "k1", true, 100, 100⟩
    didToAddress := Function.update S0.didToAddress "did:x:1" 2
    totalDIDs := S0.totalDIDs + 1 }

/-- `SA` after account `2` deactivated its DID at time `150`. -/
def SD : State :=
  { SA with
    didDocuments := Function.update SA.didDocuments 2
      { SA.didDocuments 2 with isActive := false, updatedAt := 150 }
    didToAddress := Function.update SA.didToAddress ((SA.didDocuments 2).did) 0 }

/-- A deployment with a zero oracle signer (the constructor performs no
zero check), after account `2` registered DID `"did:x:1"`. -/
def SZ : State :=
  { constructor 1 0 with
    didDocuments := Function.update (constructor 1 0).didDocuments 2
      ⟨2, "did:x:1", "k1", true, 100, 100⟩
    didToAddress := Function.update (constructor 1 0).didToAddress "did:x:1" 2
    totalDIDs := (constructor 1 0).totalDIDs + 1 }

/-- `SA` after a first successful `recordVerification` for image hash `1`
(`isReal = true`, confidence `5`, credential `77`, at time `150`). -/
def SR : State :=
  { SA with
    verificationResults := Function.update SA.verificationResults 1
      ⟨1, "subj", (SA.didDocuments 2).did, true, 5, 150, 77⟩
    totalVerifications := SA.totalVerifications + 1 }

/-- `SA` with a pending ZK-proof commitment for image hash `5`. -/
def SZK : State :=
  { SA with zkProofs := Function.update SA.zkProofs 5 ⟨6, 0, false, 200⟩ }

/-! ### Basic lemmas about the embedding combinators -/

theorem require_eq_ok {α : Type} (cond : Prop) [Decidable cond] (msg : String)
    (k : Except String α) (x : α) :
    require cond msg k = .ok x ↔ cond ∧ k = .ok x := by
  unfold require
  split <;> simp_all

theorem require_eq_error {α : Type} (cond : Prop) [Decidable cond] (msg : String)
    (k : Except String α) (e : String) :
    require cond msg k = .error e ↔ (¬ cond ∧ e = msg) ∨ (cond ∧ k = .error e) := by
  unfold require
  split <;> simp_all [eq_comm]

theorem except_bind_eq_ok {α β : Type} (x : Except String α) (f : α → Except String β)
    (y : β) : x.bind f = .ok y ↔ ∃ a, x = .ok a ∧ f a = .ok y := by
  cases x <;> simp [Except.bind]

/-! ### Byte-level encoding lemmas -/

theorem natToBeBytes_length (w n : Nat) : (natToBeBytes w n).length = w := by
  induction w generalizing n with
  | zero => rfl
  | succ w ih => simp [natToBeBytes, ih]

theorem beBytesToNat_natToBeBytes (w n : Nat) :
    beBytesToNat (natToBeBytes w n) = n % 256 ^ w := by
  induction w generalizing n with
  | zero => simp [natToBeBytes, beBytesToNat, Nat.mod_one]
  | succ w ih =>
    rw [natToBeBytes, beBytesToNat, natToBeBytes_length, ih, pow_succ, Nat.mod_mul]
    ring

theorem natToBeBytes_inj {w m n : Nat} (hm : m < 256 ^ w) (hn : n < 256 ^ w)
    (h : natToBeBytes w m = natToBeBytes w n) : m = n := by
  have := congrArg beBytesToNat h
  rwa [beBytesToNat_natToBeBytes, beBytesToNat_natToBeBytes,
    Nat.mod_eq_of_lt hm, Nat.mod_eq_of_lt hn] at this

theorem pow256_32 : (256 : Nat) ^ 32 = 2 ^ 256 := by norm_num

/-- `abi.encodePacked(bytes32, bool, uint256)` is injective on in-range
values: equal packed encodings force equal argument tuples. -/
theorem encodePacked_inj {h h' : Bytes32} {b b' : Bool} {c c' : Nat}
    (hh : h < 2 ^ 256) (hh' : h' < 2 ^ 256) (hc : c < 2 ^ 256) (hc' : c' < 2 ^ 256)
    (heq : encodePacked h b c = encodePacked h' b' c') :
    h = h' ∧ b = b' ∧ c = c' := by
  unfold encodePacked at heq
  rw [← pow256_32] at hh hh' hc hc'
  obtain ⟨h1, h2⟩ := List.append_inj heq (by simp [natToBeBytes_length])
  obtain ⟨h3, h4⟩ := List.append_inj h1 (by rw [natToBeBytes_length, natToBeBytes_length])
  refine ⟨natToBeBytes_inj hh hh' h3, ?_, natToBeBytes_inj hc hc' h2⟩
  cases b <;> cases b' <;> simp_all

/-! ### Inversion lemmas for the contract operations -/

theorem setOracleSigner_eq_ok {s : State} {sender n : Address} {s' : State} :
    setOracleSigner s sender n = .ok s' ↔
      sender = s.owner ∧ n ≠ 0 ∧ s' = { s with oracleSigner := n } := by
  simp [setOracleSigner, require_eq_ok, eq_comm (a := s')]

theorem registerDID_eq_ok {s : State} {sender : Address} {ts : Nat}
    {d pk : String} {s' : State} :
    registerDID s sender ts d pk = .ok s' ↔
      (s.didDocuments sender).isActive = false ∧ s.didToAddress d = 0 ∧
      d ≠ "" ∧ pk ≠ "" ∧
      s' = { s with
        didDocuments := Function.update s.didDocuments sender ⟨sender, d, pk, true, ts, ts⟩
        didToAddress := Function.update s.didToAddress d sender
        totalDIDs := s.totalDIDs + 1 } := by
  simp [registerDID, require_eq_ok, eq_comm (a := s')]

theorem updateDIDPublicKey_eq_ok {s : State} {sender : Address} {ts : Nat}
    {pk : String} {s' : State} :
    updateDIDPublicKey s sender ts pk = .ok s' ↔
      (s.didDocuments sender).isActive = true ∧ pk ≠ "" ∧
      s' = { s with
        didDocuments := Function.update s.didDocuments sender
          { s.didDocuments sender with publicKeyBase58 := pk, updatedAt := ts } } := by
  simp [updateDIDPublicKey, require_eq_ok, eq_comm (a := s')]

theorem deactivateDID_eq_ok {s : State} {sender : Address} {ts : Nat} {s' : State} :
    deactivateDID s sender ts = .ok s' ↔
      (s.didDocuments sender).isActive = true ∧
      s' = { s with
        didDocuments := Function.update s.didDocuments sender
          { s.didDocuments sender with isActive := false, updatedAt := ts }
        didToAddress := Function.update s.didToAddress ((s.didDocuments sender).did) 0 } := by
  simp [deactivateDID, require_eq_ok, eq_comm (a := s')]

theorem recordVerification_eq_ok {keccak : List Nat → Nat}
    {ecrecover : Nat → Nat → Nat → Nat → Address}
    {s : State} {sender : Address} {ts : Nat} {h : Bytes32} {subj : String}
    {b : Bool} {c : Nat} {cred : Bytes32} {sig : List Nat} {s' : State} :
    recordVerification keccak ecrecover s sender ts h subj b c cred sig = .ok s' ↔
      (s.didDocuments sender).isActive = true ∧ h ≠ 0 ∧ c ≤ 10000 ∧
      recoverSigner ecrecover (oracleDigest keccak h b c) sig = .ok s.oracleSigner ∧
      s' = { s with
        verificationResults := Function.update s.verificationResults h
          ⟨h, subj, (s.didDocuments sender).did, b, c, ts, cred⟩
        totalVerifications := s.totalVerifications + 1 } := by
  simp only [recordVerification, require_eq_ok, except_bind_eq_ok]
  constructor
  · rintro ⟨h1, h2, h3, a, ha, h4, h5⟩
    simp only [Except.ok.injEq] at h5
    exact ⟨h1, h2, h3, by rw [ha, h4], h5.symm⟩
  · rintro ⟨h1, h2, h3, h4, h5⟩
    exact ⟨h1, h2, h3, s.oracleSigner, h4, rfl, by rw [h5]⟩

theorem submitZKProof_eq_ok {s : State} {ts : Nat} {h p pin : Bytes32} {s' : State} :
    submitZKProof s ts h p pin = .ok s' ↔
      h ≠ 0 ∧ p ≠ 0 ∧
      s' = { s with zkProofs := Function.update s.zkProofs h ⟨p, pin, false, ts⟩ } := by
  simp [submitZKProof, require_eq_ok, eq_comm (a := s')]

theorem authorizeIssuer_eq_ok {s : State} {sender i : Address} {s' : State} :
    authorizeIssuer s sender i = .ok s' ↔
      sender = s.owner ∧ s.authorizedIssuers i = false ∧
      s' = { s with authorizedIssuers := Function.update s.authorizedIssuers i true } := by
  simp [authorizeIssuer, require_eq_ok, eq_comm (a := s')]

theorem revokeIssuer_eq_ok {s : State} {sender i : Address} {s' : State} :
    revokeIssuer s sender i = .ok s' ↔
      sender = s.owner ∧ s.authorizedIssuers i = true ∧ i ≠ s.owner ∧
      s' = { s with authorizedIssuers := Function.update s.authorizedIssuers i false } := by
  simp [revokeIssuer, require_eq_ok, eq_comm (a := s')]

theorem transferOwnership_eq_ok {s : State} {sender n : Address} {s' : State} :
    transferOwnership s sender n = .ok s' ↔
      sender = s.owner ∧ n ≠ 0 ∧
      s' = { s with
        authorizedIssuers :=
          Function.update (Function.update s.authorizedIssuers s.owner false) n true
        owner := n } := by
  simp [transferOwnership, require_eq_ok, eq_comm (a := s')]

/-! ### Signature-parsing helper lemmas -/

theorem recoverSigner_error_msg {ec : Nat → Nat → Nat → Nat → Address}
    {d : Nat} {sig : List Nat} {e : String}
    (h : recoverSigner ec d sig = .error e) :
    e = "Invalid signature length" ∨ e = "Invalid signature v value" := by
  simp only [recoverSigner, require] at h
  split_ifs at h
  all_goals (cases h <;> simp)

theorem recoverSigner_sig0 (ec : Nat → Nat → Nat → Nat → Address) (d : Nat) :
    recoverSigner ec d sig0 = .ok (ec d 27 7 9) := by
  have h1 : sig0.length = 65 := by decide
  have h2 : beBytesToNat (sig0.take 32) = 7 := by decide
  have h3 : beBytesToNat ((sig0.drop 32).take 32) = 9 := by decide
  have h4 : beBytesToNat (sig0.drop 64) = 27 := by decide
  simp [recoverSigner, require, h1, h2, h3, h4]

theorem recoverSigner_sigZero (ec : Nat → Nat → Nat → Nat → Address) (d : Nat) :
    recoverSigner ec d sigZero = .ok (ec d 27 0 0) := by
  have h1 : sigZero.length = 65 := by decide
  have h2 : beBytesToNat (sigZero.take 32) = 0 := by decide
  have h3 : beBytesToNat ((sigZero.drop 32).take 32) = 0 := by decide
  have h4 : beBytesToNat (sigZero.drop 64) = 0 := by decide
  simp [recoverSigner, require, h1, h2, h3, h4]

/-! ### Reachability invariants -/

/-- In every reachable state the current owner is an authorized issuer. -/
theorem reachable_owner_authorized {s : State} (hr : Reachable s) :
    s.authorizedIssuers s.owner = true := by
  induction hr with
  | init sender oracle hs => simp [constructor, Function.update_same]
  | step s s' hr hstep ih =>
    obtain ⟨k, e, sender, ts, op, hs0, hok⟩ := hstep
    cases op with
    | setOracleSigner n =>
      obtain ⟨-, -, rfl⟩ := setOracleSigner_eq_ok.mp hok
      simpa using ih
    | registerDID d pk =>
      obtain ⟨-, -, -, -, rfl⟩ := registerDID_eq_ok.mp hok
      simpa using ih
    | updateDIDPublicKey pk =>
      obtain ⟨-, -, rfl⟩ := updateDIDPublicKey_eq_ok.mp hok
      simpa using ih
    | deactivateDID =>
      obtain ⟨-, rfl⟩ := deactivateDID_eq_ok.mp hok
      simpa using ih
    | recordVerification h subj b c cred sig =>
      obtain ⟨-, -, -, -, rfl⟩ := recordVerification_eq_ok.mp hok
      simpa using ih
    | submitZKProof h p pin =>
      obtain ⟨-, -, rfl⟩ := submitZKProof_eq_ok.mp hok
      simpa using ih
    | authorizeIssuer i =>
      obtain ⟨-, -, rfl⟩ := authorizeIssuer_eq_ok.mp hok
      rcases eq_or_ne s.owner i with rfl | hne
      · simp [Function.update_same]
      · simpa [Function.update_noteq hne] using ih
    | revokeIssuer i =>
      obtain ⟨-, -, hio, rfl⟩ := revokeIssuer_eq_ok.mp hok
      have hne : s.owner ≠ i := fun hcontra => hio hcontra.symm
      simpa [Function.update_noteq hne] using ih
    | transferOwnership n =>
      obtain ⟨-, -, rfl⟩ := transferOwnership_eq_ok.mp hok
      simp [Function.update_same]

/-- In every reachable state, each active document of a non-zero account
is indexed back to its account under its non-empty DID string. -/
theorem reachable_didInv {s : State} (hr : Reachable s) : DidInv s := by
  induction hr with
  | init sender oracle hs =>
    intro a ha hact
    simp [constructor, emptyDoc] at hact
  | step s s' hr hstep ih =>
    obtain ⟨k, e, sender, ts, op, hs0, hok⟩ := hstep
    cases op with
    | setOracleSigner n =>
      obtain ⟨-, -, rfl⟩ := setOracleSigner_eq_ok.mp hok
      exact fun a ha hact => ih a ha hact
    | registerDID d pk =>
      obtain ⟨hinact, hfree, hd, hpk, rfl⟩ := registerDID_eq_ok.mp hok
      intro a ha hact
      simp only at hact ⊢
      rcases eq_or_ne a sender with rfl | hne
      · refine ⟨?_, ?_⟩
        · rw [Function.update_same, Function.update_same]
        · rw [Function.update_same]
          exact hd
      · rw [Function.update_noteq hne] at hact ⊢
        obtain ⟨hidx, hdne⟩ := ih a ha hact
        have hdd : (s.didDocuments a).did ≠ d := by
          intro hcontra
          rw [hcontra, hfree] at hidx
          exact ha hidx.symm
        rw [Function.update_noteq hdd]
        exact ⟨hidx, hdne⟩
    | updateDIDPublicKey pk =>
      obtain ⟨hact0, hpk, rfl⟩ := updateDIDPublicKey_eq_ok.mp hok
      intro a ha hact
      simp only at hact ⊢
      rcases eq_or_ne a sender with rfl | hne
      · rw [Function.update_same] at hact ⊢
        simp only at hact ⊢
        exact ih a ha hact0
      · rw [Function.update_noteq hne] at hact ⊢
        exact ih a ha hact
    | deactivateDID =>
      obtain ⟨hact0, rfl⟩ := deactivateDID_eq_ok.mp hok
      intro a ha hact
      simp only at hact ⊢
      rcases eq_or_ne a sender with rfl | hne
      · rw [Function.update_same] at hact
        simp at hact
      · rw [Function.update_noteq hne] at hact ⊢
        obtain ⟨hidx, hdne⟩ := ih a ha hact
        obtain ⟨hidxS, hdneS⟩ := ih sender hs0 hact0
        have hdd : (s.didDocuments a).did ≠ (s.didDocuments sender).did := by
          intro hcontra
          rw [hcontra, hidxS] at hidx
          exact hne hidx.symm
        rw [Function.update_noteq hdd]
        exact ⟨hidx, hdne⟩
    | recordVerification h subj b c cred sig =>
      obtain ⟨-, -, -, -, rfl⟩ := recordVerification_eq_ok.mp hok
      exact fun a ha hact => ih a ha hact
    | submitZKProof h p pin =>
      obtain ⟨-, -, rfl⟩ := submitZKProof_eq_ok.mp hok
      exact fun a ha hact => ih a ha hact
    | authorizeIssuer i =>
      obtain ⟨-, -, rfl⟩ := authorizeIssuer_eq_ok.mp hok
      exact fun a ha hact => ih a ha hact
    | revokeIssuer i =>
      obtain ⟨-, -, -, rfl⟩ := revokeIssuer_eq_ok.mp hok
      exact fun a ha hact => ih a ha hact
    | transferOwnership n =>
      obtain ⟨-, -, rfl⟩ := transferOwnership_eq_ok.mp hok
      exact fun a ha hact => ih a ha hact

/-! ### Claim C5 — confidence bound -/

/-- C5: for a caller holding an active DID, a non-zero content hash, and a
signature recovering to the current Oracle Signer, `recordVerification`
fails for every confidence strictly greater than 10000 (with any
signature) and succeeds for every confidence in `[0, 10000]`. -/
theorem claim5_confidence_bound
    (keccak : List Nat → Nat) (ecrecover : Nat → Nat → Nat → Nat → Address)
    (s : State) (sender : Address) (ts : Nat) (h : Bytes32) (subj : String)
    (b : Bool) (cred : Bytes32)
    (hact : (s.didDocuments sender).isActive = true) (hh0 : h ≠ 0) :
    (∀ c (sig : List Nat), 10000 < c → ∀ s',
       recordVerification keccak ecrecover s sender ts h subj b c cred sig ≠ .ok s') ∧
    (∀ c (sig : List Nat), c ≤ 10000 →
       recoverSigner ecrecover (oracleDigest keccak h b c) sig = .ok s.oracleSigner →
       ∃ s', recordVerification keccak ecrecover s sender ts h subj b c cred sig = .ok s') := by
  constructor
  · intro c sig hc s' habs
    obtain ⟨-, -, hle, -, -⟩ := recordVerification_eq_ok.mp habs
    omega
  · intro c sig hc hrec
    exact ⟨_, recordVerification_eq_ok.mpr ⟨hact, hh0, hc, hrec, rfl⟩⟩

theorem claim5_confidence_bound_witness :
    (∀ s', recordVerification kecc0 ecrec0 SA 2 150 1 "subj" true 10001 77 sig0 ≠ .ok s') ∧
    (∃ s', recordVerification kecc0 ecrec0 SA 2 150 1 "subj" true 5 77 sig0 = .ok s') := by
  have hvalid : recoverSigner ecrec0 (oracleDigest kecc0 1 true 5) sig0 = .ok SA.oracleSigner := by
    rw [recoverSigner_sig0]
    show Except.ok (ecrec0 D0 27 7 9) = _
    simp [ecrec0]
    rfl
  have H := claim5_confidence_bound kecc0 ecrec0 SA 2 150 1 "subj" true 77
    (by decide) (by decide)
  exact ⟨H.1 10001 sig0 (by norm_num), H.2 5 sig0 (by norm_num) hvalid⟩

/-! ### Claim C7 — counter monotonicity and failure atomicity -/

/-- C7: a successful `registerDID` increments `totalDIDs` by exactly one
(leaving `totalVerifications` unchanged), a successful
`recordVerification` increments `totalVerifications` by exactly one
(leaving `totalDIDs` unchanged), and a reverted call to any registry
operation leaves the entire state exactly as it was. -/
theorem claim7_counter_monotonicity :
    (∀ (keccak : List Nat → Nat) (ecrecover : Nat → Nat → Nat → Nat → Address)
       (s : State) (sender : Address) (ts : Nat) (d pk : String) (s' : State),
       dispatch keccak ecrecover s sender ts (.registerDID d pk) = .ok s' →
       s'.totalDIDs = s.totalDIDs + 1 ∧ s'.totalVerifications = s.totalVerifications) ∧
    (∀ (keccak : List Nat → Nat) (ecrecover : Nat → Nat → Nat → Nat → Address)
       (s : State) (sender : Address) (ts : Nat) (h : Bytes32) (subj : String)
       (b : Bool) (c : Nat) (cred : Bytes32) (sig : List Nat) (s' : State),
       dispatch keccak ecrecover s sender ts (.recordVerification h subj b c cred sig) = .ok s' →
       s'.totalVerifications = s.totalVerifications + 1 ∧ s'.totalDIDs = s.totalDIDs) ∧
    (∀ (keccak : List Nat → Nat) (ecrecover : Nat → Nat → Nat → Nat → Address)
       (s : State) (sender : Address) (ts : Nat) (op : Op) (e : String),
       dispatch keccak ecrecover s sender ts op = .error e →
       exec keccak ecrecover s sender ts op = s) := by
  refine ⟨?_, ?_, ?_⟩
  · intro keccak ecrecover s sender ts d pk s' hok
    obtain ⟨-, -, -, -, rfl⟩ := registerDID_eq_ok.mp hok
    exact ⟨rfl, rfl⟩
  · intro keccak ecrecover s sender ts h subj b c cred sig s' hok
    obtain ⟨-, -, -, -, rfl⟩ := recordVerification_eq_ok.mp hok
    exact ⟨rfl, rfl⟩
  · intro keccak ecrecover s sender ts op e herr
    unfold exec
    rw [herr]

theorem claim7_counter_monotonicity_witness :
    (SA.totalDIDs = S0.totalDIDs + 1 ∧ SA.totalVerifications = S0.totalVerifications) ∧
    (exec kecc0 ecrec0 SA 2 100 (.registerDID "did:z:9" "k9") = SA) := by
  have H := claim7_counter_monotonicity
  constructor
  · exact H.1 kecc0 ecrec0 S0 2 100 "did:x:1" "k1" SA
      (registerDID_eq_ok.mpr ⟨by decide, by decide, by decide, by decide, rfl⟩)
  · exact H.2.2 kecc0 ecrec0 SA 2 100 (.registerDID "did:z:9" "k9")
      "DID already registered" rfl

/-! ### Claim C10 — re-registration after deactivation -/

/-- C10: an account whose DID document has been deactivated can register
again with a fresh unbound non-empty DID string and non-empty key, and the
new registration completely replaces the historical document (the old
`did`, `publicKeyBase58`, and `createdAt` are all overwritten), while also
installing the reverse index and incrementing `totalDIDs`. -/
theorem claim10_reregistration_replaces
    (s : State) (A : Address) (ts0 ts1 : Nat) (s₁ : State) (D pk : String)
    (hde : deactivateDID s A ts0 = .ok s₁)
    (hfree : s₁.didToAddress D = 0) (hD : D ≠ "") (hpk : pk ≠ "") :
    ∃ s₂, registerDID s₁ A ts1 D pk = .ok s₂ ∧
      s₂.didDocuments A = ⟨A, D, pk, true, ts1, ts1⟩ ∧
      s₂.didToAddress D = A ∧
      s₂.totalDIDs = s₁.totalDIDs + 1 := by
  obtain ⟨hact0, rfl⟩ := deactivateDID_eq_ok.mp hde
  refine ⟨_, registerDID_eq_ok.mpr ⟨?_, hfree, hD, hpk, rfl⟩, ?_, ?_, rfl⟩
  · dsimp only
    rw [Function.update_same]
  · dsimp only
    rw [Function.update_same]
  · dsimp only
    rw [Function.update_same]

theorem claim10_reregistration_replaces_witness :
    ∃ s₂, registerDID SD 2 200 "did:y:2" "k2" = .ok s₂ ∧
      s₂.didDocuments 2 = ⟨2, "did:y:2", "k2", true, 200, 200⟩ ∧
      s₂.didToAddress "did:y:2" = 2 ∧
      s₂.totalDIDs = SD.totalDIDs + 1 := by
  exact claim10_reregistration_replaces SA 2 150 200 SD "did:y:2" "k2"
    (deactivateDID_eq_ok.mpr ⟨by decide, rfl⟩) (by decide) (by decide) (by decide)

/-! ### Claim C9 — issuer-authorization set does not affect recording -/

/-- C9: `recordVerification` is independent of the authorized-issuer set:
running it in a state whose `authorizedIssuers` differs at the caller
produces the same success-or-failure outcome and the same verification
state (the result differs only by that same `authorizedIssuers` change);
moreover no state-mutating operation ever rejects with the
`onlyAuthorizedIssuer` modifier's reason string, i.e. that check is not
applied by any of them. -/
theorem claim9_issuer_noninterference
    (keccak : List Nat → Nat) (ecrecover : Nat → Nat → Nat → Nat → Address)
    (s : State) (sender : Address) (ts : Nat) (h : Bytes32) (subj : String)
    (b : Bool) (c : Nat) (cred : Bytes32) (sig : List Nat) (bv : Bool)
    (hact : (s.didDocuments sender).isActive = true) :
    (recordVerification keccak ecrecover
        { s with authorizedIssuers := Function.update s.authorizedIssuers sender bv }
        sender ts h subj b c cred sig
      = (recordVerification keccak ecrecover s sender ts h subj b c cred sig).map
          (fun t => { t with authorizedIssuers := Function.update t.authorizedIssuers sender bv }))
    ∧ (∀ (s₂ : State) (sender₂ : Address) (ts₂ : Nat) (op : Op),
        dispatch keccak ecrecover s₂ sender₂ ts₂ op ≠ .error "Not an authorized issuer") := by
  constructor
  · unfold recordVerification require
    dsimp only
    cases hrec : recoverSigner ecrecover (oracleDigest keccak h b c) sig with
    | error e => split_ifs <;> simp [Except.map, Except.bind, hrec]
    | ok a =>
      split_ifs <;> simp [Except.map, Except.bind, hrec, require] <;> split_ifs <;>
        simp [Except.map]
  · intro s2 sender2 ts2 op hcontra
    cases op with
    | setOracleSigner n =>
      simp only [dispatch, setOracleSigner, require] at hcontra
      split_ifs at hcontra <;> simp_all
    | registerDID d pk =>
      simp only [dispatch, registerDID, require] at hcontra
      split_ifs at hcontra <;> simp_all
    | updateDIDPublicKey pk =>
      simp only [dispatch, updateDIDPublicKey, require] at hcontra
      split_ifs at hcontra <;> simp_all
    | deactivateDID =>
      simp only [dispatch, deactivateDID, require] at hcontra
      split_ifs at hcontra <;> simp_all
    | recordVerification h2 subj2 b2 c2 cred2 sig2 =>
      simp only [dispatch, recordVerification, require] at hcontra
      split_ifs at hcontra <;> try simp_all
      cases hrec : recoverSigner ecrecover (oracleDigest keccak h2 b2 c2) sig2 with
      | error e =>
        rw [hrec] at hcontra
        simp only [Except.bind, Except.error.injEq] at hcontra
        rcases recoverSigner_error_msg hrec with rfl | rfl <;> simp_all
      | ok a =>
        rw [hrec] at hcontra
        simp only [Except.bind, require] at hcontra
        split_ifs at hcontra <;> simp_all
    | submitZKProof h2 p2 pin2 =>
      simp only [dispatch, submitZKProof, require] at hcontra
      split_ifs at hcontra <;> simp_all
    | authorizeIssuer i =>
      simp only [dispatch, authorizeIssuer, require] at hcontra
      split_ifs at hcontra <;> simp_all
    | revokeIssuer i =>
      simp only [dispatch, revokeIssuer, require] at hcontra
      split_ifs at hcontra <;> simp_all
    | transferOwnership n =>
      simp only [dispatch, transferOwnership, require] at hcontra
      split_ifs at hcontra <;> simp_all

theorem claim9_issuer_noninterference_witness :
    (recordVerification kecc0 ecrec0
        { SA with authorizedIssuers := Function.update SA.authorizedIssuers 2 true }
        2 150 1 "subj" true 5 77 sig0
      = (recordVerification kecc0 ecrec0 SA 2 150 1 "subj" true 5 77 sig0).map
          (fun t => { t with authorizedIssuers := Function.update t.authorizedIssuers 2 true }))
    ∧ dispatch kecc0 ecrec0 SA 2 150
        (.recordVerification 1 "subj" true 5 77 sig0) ≠ .error "Not an authorized issuer" := by
  have H := claim9_issuer_noninterference kecc0 ecrec0 SA 2 150 1 "subj" true 5 77
    sig0 true (by decide)
  exact ⟨H.1, H.2 SA 2 150 (.recordVerification 1 "subj" true 5 77 sig0)⟩

/-- The concrete state `SA` is reachable: deploy as account `1` with
oracle `5`, then account `2` registers `"did:x:1"`. -/
theorem reachable_SA : Reachable SA := by
  refine .step S0 SA (.init 1 5 (by decide)) ?_
  exact ⟨kecc0, ecrec0, 2, 100, .registerDID "did:x:1" "k1", by decide,
    registerDID_eq_ok.mpr ⟨by decide, by decide, by decide, by decide, rfl⟩⟩

/-! ### Claim C4 — DID uniqueness and reusability -/

/-- C4: in any reachable state, while an account A holds an active DID
document no account (in particular no distinct B) can register A's DID
string; an account with an active document cannot register a second DID in
any state; and after a successful `deactivateDID` the reverse index entry
for the DID is cleared, the historical document is retained with
`isActive = false` (and the bumped `updatedAt`), and any account without
an active document can then successfully claim the freed DID string. -/
theorem claim4_did_uniqueness :
    (∀ s : State, Reachable s → ∀ A : Address, A ≠ 0 →
       (s.didDocuments A).isActive = true →
       ∀ (B : Address) (ts : Nat) (pk : String) (s' : State),
         registerDID s B ts ((s.didDocuments A).did) pk ≠ .ok s') ∧
    (∀ (s : State) (A : Address), (s.didDocuments A).isActive = true →
       ∀ (D pk : String) (ts : Nat) (s' : State),
         registerDID s A ts D pk ≠ .ok s') ∧
    (∀ s : State, Reachable s → ∀ (A : Address) (ts : Nat) (s₁ : State), A ≠ 0 →
       deactivateDID s A ts = .ok s₁ →
       s₁.didToAddress ((s.didDocuments A).did) = 0 ∧
       s₁.didDocuments A =
         { s.didDocuments A with isActive := false, updatedAt := ts } ∧
       (∀ (B : Address) (ts' : Nat) (pk' : String),
          (s₁.didDocuments B).isActive = false → pk' ≠ "" →
          ∃ s₂, registerDID s₁ B ts' ((s.didDocuments A).did) pk' = .ok s₂)) := by
  refine ⟨?_, ?_, ?_⟩
  · intro s hr A hA hact B ts pk s' habs
    obtain ⟨hidx, -⟩ := reachable_didInv hr A hA hact
    obtain ⟨-, hfree, -, -, -⟩ := registerDID_eq_ok.mp habs
    rw [hidx] at hfree
    exact hA hfree
  · intro s A hact D pk ts s' habs
    obtain ⟨hin, -, -, -, -⟩ := registerDID_eq_ok.mp habs
    rw [hact] at hin
    exact absurd hin (by simp)
  · intro s hr A ts s1 hA hde
    have hact0 : (s.didDocuments A).isActive = true := (deactivateDID_eq_ok.mp hde).1
    obtain ⟨hidx, hdidne⟩ := reachable_didInv hr A hA hact0
    obtain ⟨-, rfl⟩ := deactivateDID_eq_ok.mp hde
    refine ⟨?_, ?_, ?_⟩
    · dsimp only
      rw [Function.update_same]
    · dsimp only
      rw [Function.update_same]
    · intro B ts' pk' hBin hpk'
      refine ⟨_, registerDID_eq_ok.mpr ⟨hBin, ?_, hdidne, hpk', rfl⟩⟩
      dsimp only
      rw [Function.update_same]

theorem claim4_did_uniqueness_witness :
    (∀ s', registerDID SA 3 300 "did:x:1" "kB" ≠ .ok s') ∧
    (∀ s', registerDID SA 2 300 "did:z:9" "k9" ≠ .ok s') ∧
    (SD.didToAddress "did:x:1" = 0 ∧
     SD.didDocuments 2 = ⟨2, "did:x:1", "k1", false, 100, 150⟩ ∧
     ∃ s₂, registerDID SD 3 400 "did:x:1" "kB" = .ok s₂) := by
  have H := claim4_did_uniqueness
  refine ⟨?_, ?_, ?_⟩
  · intro s'
    exact H.1 SA reachable_SA 2 (by decide) (by decide) 3 300 "kB" s'
  · intro s'
    exact H.2.1 SA 2 (by decide) "did:z:9" "k9" 300 s'
  · have H3 := H.2.2 SA reachable_SA 2 150 SD (by decide)
      (deactivateDID_eq_ok.mpr ⟨by decide, rfl⟩)
    exact ⟨H3.1, H3.2.1, H3.2.2 3 400 "kB" (by decide) (by decide)⟩

/-! ### Claim C6 — the administrator is always an authorized issuer -/

/-- C6: the deployer is an authorized issuer at construction;
`revokeIssuer` always fails when the target is the current administrator;
`transferOwnership` fails on the zero address and, when it succeeds,
atomically installs the new owner as an authorized issuer and
de-authorizes the outgoing one; and in every reachable state
`authorizedIssuers[owner] = true`. -/
theorem claim6_owner_always_authorized :
    (∀ sender oracle : Address, sender ≠ 0 →
       (constructor sender oracle).authorizedIssuers ((constructor sender oracle).owner) = true) ∧
    (∀ (s : State) (sender : Address) (s' : State),
       revokeIssuer s sender s.owner ≠ .ok s') ∧
    (∀ (s : State) (sender : Address) (s' : State),
       transferOwnership s sender 0 ≠ .ok s') ∧
    (∀ (s : State) (sender n : Address) (s' : State),
       transferOwnership s sender n = .ok s' →
       s'.owner = n ∧ s'.authorizedIssuers n = true ∧
       (s.owner ≠ n → s'.authorizedIssuers s.owner = false)) ∧
    (∀ s : State, Reachable s → s.authorizedIssuers s.owner = true) := by
  refine ⟨?_, ?_, ?_, ?_, ?_⟩
  · intro sender oracle hs
    simp [constructor, Function.update_same]
  · intro s sender s' habs
    obtain ⟨-, -, hio, -⟩ := revokeIssuer_eq_ok.mp habs
    exact hio rfl
  · intro s sender s' habs
    obtain ⟨-, h0, -⟩ := transferOwnership_eq_ok.mp habs
    exact h0 rfl
  · intro s sender n s' hok
    obtain ⟨-, -, rfl⟩ := transferOwnership_eq_ok.mp hok
    refine ⟨rfl, ?_, ?_⟩
    · dsimp only
      rw [Function.update_same]
    · intro hne
      dsimp only
      rw [Function.update_noteq hne, Function.update_same]
  · exact fun s hr => reachable_owner_authorized hr

theorem claim6_owner_always_authorized_witness :
    (S0.authorizedIssuers S0.owner = true) ∧
    (∀ s', revokeIssuer S0 1 1 ≠ .ok s') ∧
    (∀ s', transferOwnership S0 1 0 ≠ .ok s') ∧
    (∃ s', transferOwnership S0 1 9 = .ok s' ∧
       s'.owner = 9 ∧ s'.authorizedIssuers 9 = true ∧ s'.authorizedIssuers 1 = false) ∧
    (SA.authorizedIssuers SA.owner = true) := by
  have H := claim6_owner_always_authorized
  refine ⟨H.1 1 5 (by decide), fun s' => H.2.1 S0 1 s', fun s' => H.2.2.1 S0 1 s', ?_,
    H.2.2.2.2 SA reachable_SA⟩
  obtain ⟨h1, h2, h3⟩ := H.2.2.2.1 S0 1 9 _ (transferOwnership_eq_ok.mpr ⟨rfl, by decide, rfl⟩)
  exact ⟨_, transferOwnership_eq_ok.mpr ⟨rfl, by decide, rfl⟩, h1, h2, h3 (by decide)⟩

/-! ### Claim C1 — oracle authentication, signature binding, rotation -/

/-- C1: for a caller with an active DID, a non-zero content hash and an
in-range confidence, `recordVerification` succeeds iff the supplied
65-byte signature recovers (over the Ethereum-prefixed keccak digest of
the packed tuple) to the current Oracle Signer; consequently — under the
standard symbolic idealizations of the primitives, stated pointwise as
hypotheses: the signature authenticates the oracle only at its own digest,
keccak is collision-free on the four byte strings involved, and its
outputs fit in 32 bytes — changing any one of `(contentHash, isReal,
confidence)` makes recording with the old signature fail, and rotating the
Oracle Signer makes the old signature fail for the same verdict. -/
theorem claim1_oracle_authentication
    (keccak : List Nat → Nat) (ecrecover : Nat → Nat → Nat → Nat → Address)
    (s : State) (sender : Address) (ts : Nat) (h : Bytes32) (subj : String)
    (b : Bool) (c : Nat) (cred : Bytes32)
    (hact : (s.didDocuments sender).isActive = true)
    (hh0 : h ≠ 0) (hc : c ≤ 10000) :
    (∀ sig : List Nat, sig.length = 65 →
      ((∃ s', recordVerification keccak ecrecover s sender ts h subj b c cred sig = .ok s') ↔
        recoverSigner ecrecover (oracleDigest keccak h b c) sig = .ok s.oracleSigner)) ∧
    (∀ (sig : List Nat) (h' : Bytes32) (subj' : String) (b' : Bool) (c' : Nat)
       (cred' : Bytes32),
      recoverSigner ecrecover (oracleDigest keccak h b c) sig = .ok s.oracleSigner →
      (∀ d : Nat, recoverSigner ecrecover d sig = .ok s.oracleSigner →
         d = oracleDigest keccak h b c) →
      (keccak (encodePacked h' b' c') = keccak (encodePacked h b c) →
         encodePacked h' b' c' = encodePacked h b c) →
      (keccak (ethPrefix ++ natToBeBytes 32 (keccak (encodePacked h' b' c'))) =
         keccak (ethPrefix ++ natToBeBytes 32 (keccak (encodePacked h b c))) →
         ethPrefix ++ natToBeBytes 32 (keccak (encodePacked h' b' c')) =
           ethPrefix ++ natToBeBytes 32 (keccak (encodePacked h b c))) →
      keccak (encodePacked h b c) < 2 ^ 256 →
      keccak (encodePacked h' b' c') < 2 ^ 256 →
      h < 2 ^ 256 → h' < 2 ^ 256 → c' < 2 ^ 256 →
      (h', b', c') ≠ (h, b, c) →
      ∀ s' : State,
        recordVerification keccak ecrecover s sender ts h' subj' b' c' cred' sig ≠ .ok s') ∧
    (∀ (sig : List Nat) (newSigner : Address) (s₂ : State),
      recoverSigner ecrecover (oracleDigest keccak h b c) sig = .ok s.oracleSigner →
      newSigner ≠ s.oracleSigner →
      setOracleSigner s s.owner newSigner = .ok s₂ →
      ∀ (subj₂ : String) (cred₂ : Bytes32) (s' : State),
        recordVerification keccak ecrecover s₂ sender ts h subj₂ b c cred₂ sig ≠ .ok s') := by
  refine ⟨?_, ?_, ?_⟩
  · intro sig hlen
    constructor
    · rintro ⟨s', hok⟩
      exact (recordVerification_eq_ok.mp hok).2.2.2.1
    · intro hrec
      exact ⟨_, recordVerification_eq_ok.mpr ⟨hact, hh0, hc, hrec, rfl⟩⟩
  · intro sig h' subj' b' c' cred' hvalid hbind hcoll1 hcoll2 hr1 hr2 hhlt hh'lt hc'lt
      hne s' habs
    obtain ⟨-, -, -, hrec', -⟩ := recordVerification_eq_ok.mp habs
    have hD := hbind _ hrec'
    have hx := List.append_cancel_left (hcoll2 hD)
    have hm : keccak (encodePacked h' b' c') = keccak (encodePacked h b c) :=
      natToBeBytes_inj (by rw [pow256_32]; exact hr2) (by rw [pow256_32]; exact hr1) hx
    obtain ⟨hh, hb, hcc⟩ :=
      encodePacked_inj hh'lt hhlt hc'lt (lt_of_le_of_lt hc (by norm_num)) (hcoll1 hm)
    exact hne (by rw [hh, hb, hcc])
  · intro sig newSigner s₂ hvalid hnew hset subj₂ cred₂ s' habs
    obtain ⟨-, -, rfl⟩ := setOracleSigner_eq_ok.mp hset
    obtain ⟨-, -, -, hrec', -⟩ := recordVerification_eq_ok.mp habs
    have hcontra := hvalid.symm.trans hrec'
    injection hcontra with hcontra
    exact hnew hcontra.symm

theorem claim1_oracle_authentication_witness :
    (∃ s', recordVerification kecc0 ecrec0 SA 2 150 1 "subj" true 5 77 sig0 = .ok s') ∧
    (∀ s', recordVerification kecc0 ecrec0 SA 2 150 2 "subj" true 5 88 sig0 ≠ .ok s') ∧
    (∀ s', recordVerification kecc0 ecrec0 { SA with oracleSigner := 9 }
        2 150 1 "subj" true 5 77 sig0 ≠ .ok s') := by
  have hvalid : recoverSigner ecrec0 (oracleDigest kecc0 1 true 5) sig0 =
      .ok SA.oracleSigner := by
    rw [recoverSigner_sig0]
    show Except.ok (ecrec0 D0 27 7 9) = _
    simp [ecrec0]
    rfl
  have hbind : ∀ d : Nat, recoverSigner ecrec0 d sig0 = .ok SA.oracleSigner →
      d = oracleDigest kecc0 1 true 5 := by
    intro d hd
    rw [recoverSigner_sig0] at hd
    by_cases hdd : d = D0
    · exact hdd
    · exfalso
      rw [show SA.oracleSigner = 5 from rfl] at hd
      simp [ecrec0, hdd] at hd
  have H := claim1_oracle_authentication kecc0 ecrec0 SA 2 150 1 "subj" true 5 77
    (by decide) (by decide) (by decide)
  refine ⟨(H.1 sig0 (by decide)).mpr hvalid, ?_, ?_⟩
  · intro s'
    exact H.2.1 sig0 2 "subj" true 5 88 hvalid hbind
      (fun hEq => absurd hEq (by decide))
      (fun hEq => absurd hEq (by decide))
      (by decide) (by decide) (by decide) (by decide) (by decide) (by decide) s'
  · intro s'
    exact H.2.2 sig0 9 { SA with oracleSigner := 9 } hvalid (by decide)
      (setOracleSigner_eq_ok.mpr ⟨rfl, by decide, rfl⟩) "subj" 77 s'

/-! ### Claim C2 — zero-address recovery (corrected) -/

/-- C2 counterexample: in a reachable state whose Oracle Signer is the
zero address (the constructor performs no zero check), a format-valid
all-zero signature — on which the EVM `ecrecover` genuinely fails,
returning the zero address — is returned by `recoverSigner` as an
ordinary `.ok 0` rather than an authentication failure, and
`recordVerification` accepts it: the zero address is treated as a
successfully recovered signer. -/
theorem claim2_zero_address_counterexample :
    Reachable SZ ∧ SZ.oracleSigner = 0 ∧
    recoverSigner ecrecZero (oracleDigest kecc0 1 true 5) sigZero = .ok 0 ∧
    (∃ s', recordVerification kecc0 ecrecZero SZ 2 150 1 "subj" true 5 77 sigZero = .ok s') := by
  refine ⟨?_, rfl, ?_, ?_⟩
  · refine .step (constructor 1 0) SZ (.init 1 0 (by decide)) ?_
    exact ⟨kecc0, ecrecZero, 2, 100, .registerDID "did:x:1" "k1", by decide,
      registerDID_eq_ok.mpr ⟨by decide, by decide, by decide, by decide, rfl⟩⟩
  · rw [recoverSigner_sigZero]
    rfl
  · refine ⟨_, recordVerification_eq_ok.mpr ⟨by decide, by decide, by decide, ?_, rfl⟩⟩
    rw [recoverSigner_sigZero]
    rfl

/-- C2 amended: `recoverSigner` validates only the signature length and
the recovery parameter and then returns the raw `ecrecover` output — on
recovery failure that output is the zero address, returned as a normal
result, not signalled as an authentication failure; `recordVerification`
rejects a zero recovered address only because of the comparison with
`oracleSigner`, i.e. only when `oracleSigner ≠ 0`; and since the
constructor accepts a zero Oracle Signer, states where failed recoveries
are accepted are reachable. -/
theorem claim2_recover_returns_raw_output :
    (∀ (ec : Nat → Nat → Nat → Nat → Address) (d : Nat) (sig : List Nat),
       sig.length = 65 →
       ((if beBytesToNat (sig.drop 64) < 27 then beBytesToNat (sig.drop 64) + 27
         else beBytesToNat (sig.drop 64)) = 27 ∨
        (if beBytesToNat (sig.drop 64) < 27 then beBytesToNat (sig.drop 64) + 27
         else beBytesToNat (sig.drop 64)) = 28) →
       recoverSigner ec d sig =
         .ok (ec d
           (if beBytesToNat (sig.drop 64) < 27 then beBytesToNat (sig.drop 64) + 27
            else beBytesToNat (sig.drop 64))
           (beBytesToNat (sig.take 32)) (beBytesToNat ((sig.drop 32).take 32)))) ∧
    (∀ (keccak : List Nat → Nat) (ec : Nat → Nat → Nat → Nat → Address)
       (s : State) (sender : Address) (ts : Nat) (h : Bytes32) (subj : String)
       (b : Bool) (c : Nat) (cred : Bytes32) (sig : List Nat),
       s.oracleSigner ≠ 0 →
       recoverSigner ec (oracleDigest keccak h b c) sig = .ok 0 →
       ∀ s', recordVerification keccak ec s sender ts h subj b c cred sig ≠ .ok s') ∧
    (∀ sender : Address, sender ≠ 0 →
       Reachable (constructor sender 0) ∧ (constructor sender 0).oracleSigner = 0) := by
  refine ⟨?_, ?_, ?_⟩
  · intro ec d sig hlen hv
    simp only [recoverSigner, require]
    rw [if_pos hlen]
    rw [if_pos hv]
  · intro keccak ec s sender ts h subj b c cred sig hos hzero s' habs
    obtain ⟨-, -, -, hrec', -⟩ := recordVerification_eq_ok.mp habs
    have hcontra := hzero.symm.trans hrec'
    injection hcontra with hcontra
    exact hos hcontra.symm
  · exact fun sender hs => ⟨.init sender 0 hs, rfl⟩

theorem claim2_recover_returns_raw_output_witness :
    recoverSigner ecrecZero (oracleDigest kecc0 1 true 5) sigZero =
      .ok (ecrecZero (oracleDigest kecc0 1 true 5) 27 0 0) ∧
    (∀ s', recordVerification kecc0 ecrecZero SA 2 150 1 "subj" true 5 77 sigZero ≠ .ok s') ∧
    Reachable (constructor 3 0) := by
  have H := claim2_recover_returns_raw_output
  refine ⟨?_, ?_, (H.2.2 3 (by decide)).1⟩
  · exact H.1 ecrecZero (oracleDigest kecc0 1 true 5) sigZero (by decide) (by decide)
  · intro s'
    exact H.2.1 kecc0 ecrecZero SA 2 150 1 "subj" true 5 77 sigZero (by decide)
      (by rw [recoverSigner_sigZero]; rfl) s'

/-! ### Claim C3 — duplicate recording (corrected) -/

/-- C3 counterexample: `recordVerification` performs no duplicate check —
after a first successful record for image hash 1 (stored in `SR` with
`timestamp = 150`, confidence 5, `isReal = true`), a second successful
call for the same hash silently replaces the stored record with the new
data. -/
theorem claim3_overwrite_counterexample :
    recordVerification kecc0 ecrecAll5 SA 2 150 1 "subj" true 5 77 sig0 = .ok SR ∧
    0 < (SR.verificationResults 1).timestamp ∧
    (∃ s₂, recordVerification kecc0 ecrecAll5 SR 2 160 1 "subj2" false 6 88 sig0 = .ok s₂ ∧
       s₂.verificationResults 1 = ⟨1, "subj2", "did:x:1", false, 6, 160, 88⟩ ∧
       s₂.verificationResults 1 ≠ SR.verificationResults 1) := by
  refine ⟨recordVerification_eq_ok.mpr ⟨by decide, by decide, by decide, ?_, rfl⟩,
    by decide, ?_⟩
  · rw [recoverSigner_sig0]
    rfl
  · refine ⟨_, recordVerification_eq_ok.mpr ⟨by decide, by decide, by decide, ?_, rfl⟩,
      by decide, by decide⟩
    rw [recoverSigner_sig0]
    rfl

/-- C3 amended: a successful `recordVerification` for a content hash that
already has a record (timestamp > 0) silently overwrites it — the stored
record afterwards is exactly the newly submitted data (last-writer-wins),
and `totalVerifications` is incremented again; there is no duplicate
rejection. -/
theorem claim3_overwrite_behavior
    (keccak : List Nat → Nat) (ecrecover : Nat → Nat → Nat → Nat → Address)
    (s : State) (sender : Address) (ts : Nat) (h : Bytes32) (subj : String)
    (b : Bool) (c : Nat) (cred : Bytes32) (sig : List Nat) (s' : State)
    (hprev : 0 < (s.verificationResults h).timestamp)
    (hok : recordVerification keccak ecrecover s sender ts h subj b c cred sig = .ok s') :
    s'.verificationResults h = ⟨h, subj, (s.didDocuments sender).did, b, c, ts, cred⟩ ∧
    s'.totalVerifications = s.totalVerifications + 1 := by
  obtain ⟨-, -, -, -, rfl⟩ := recordVerification_eq_ok.mp hok
  refine ⟨?_, rfl⟩
  dsimp only
  rw [Function.update_same]

theorem claim3_overwrite_behavior_witness :
    ∃ s₂, recordVerification kecc0 ecrecAll5 SR 2 160 1 "subj2" false 6 88 sig0 = .ok s₂ ∧
      s₂.verificationResults 1 = ⟨1, "subj2", (SR.didDocuments 2).did, false, 6, 160, 88⟩ ∧
      s₂.totalVerifications = SR.totalVerifications + 1 := by
  have hok : recordVerification kecc0 ecrecAll5 SR 2 160 1 "subj2" false 6 88 sig0 =
      .ok { SR with
        verificationResults := Function.update SR.verificationResults 1
          ⟨1, "subj2", (SR.didDocuments 2).did, false, 6, 160, 88⟩
        totalVerifications := SR.totalVerifications + 1 } := by
    refine recordVerification_eq_ok.mpr ⟨by decide, by decide, by decide, ?_, rfl⟩
    rw [recoverSigner_sig0]
    rfl
  have H := claim3_overwrite_behavior kecc0 ecrecAll5 SR 2 160 1 "subj2" false 6 88
    sig0 _ (by decide) hok
  exact ⟨_, hok, H.1, H.2⟩

/-! ### Claim C8 — ZK proof commitment store (corrected) -/

/-- C8 counterexample: `submitZKProof` does not validate
`_publicInputHash` — a call with a zero `publicInputHash` (and non-zero
content and proof hashes) succeeds and stores the commitment, refuting
that it fails whenever any of its three hash arguments is zero. -/
theorem claim8_zero_public_input_counterexample :
    ∃ s', submitZKProof SA 200 5 6 0 = .ok s' ∧ s'.zkProofs 5 = ⟨6, 0, false, 200⟩ := by
  exact ⟨_, submitZKProof_eq_ok.mpr ⟨by decide, by decide, rfl⟩, by decide⟩

/-- C8 amended: `submitZKProof` fails iff `contentHash` or `proofHash` is
zero (`publicInputHash` is not validated) and on success stores a
commitment with `isValid = false` and the current timestamp;
`verifyZKProof` fails exactly when no commitment exists (timestamp 0) and
otherwise returns the boolean equality of the stored `proofHash` with the
expected one. -/
theorem claim8_zkproof_behavior :
    (∀ (s : State) (ts : Nat) (h p pin : Bytes32) (s' : State),
       (h = 0 ∨ p = 0) → submitZKProof s ts h p pin ≠ .ok s') ∧
    (∀ (s : State) (ts : Nat) (h p pin : Bytes32), h ≠ 0 → p ≠ 0 →
       ∃ s', submitZKProof s ts h p pin = .ok s' ∧
         s'.zkProofs h = ⟨p, pin, false, ts⟩) ∧
    (∀ (s : State) (h expected : Bytes32), (s.zkProofs h).timestamp = 0 →
       verifyZKProof s h expected = .error "ZK Proof not found") ∧
    (∀ (s : State) (h expected : Bytes32), 0 < (s.zkProofs h).timestamp →
       verifyZKProof s h expected = .ok (decide ((s.zkProofs h).proofHash = expected))) := by
  refine ⟨?_, ?_, ?_, ?_⟩
  · intro s ts h p pin s' hz habs
    obtain ⟨hh, hp, -⟩ := submitZKProof_eq_ok.mp habs
    rcases hz with rfl | rfl
    · exact hh rfl
    · exact hp rfl
  · intro s ts h p pin hh hp
    refine ⟨_, submitZKProof_eq_ok.mpr ⟨hh, hp, rfl⟩, ?_⟩
    dsimp only
    rw [Function.update_same]
  · intro s h expected hz
    unfold verifyZKProof require
    rw [if_neg (by omega)]
  · intro s h expected hz
    unfold verifyZKProof require
    rw [if_pos hz]

theorem claim8_zkproof_behavior_witness :
    (∀ s', submitZKProof SA 200 0 6 1 ≠ .ok s') ∧
    (∃ s', submitZKProof SA 200 5 6 1 = .ok s' ∧ s'.zkProofs 5 = ⟨6, 1, false, 200⟩) ∧
    (verifyZKProof SA 5 6 = .error "ZK Proof not found") ∧
    (verifyZKProof SZK 5 6 = .ok true) ∧ (verifyZKProof SZK 5 7 = .ok false) := by
  have H := claim8_zkproof_behavior
  refine ⟨fun s' => H.1 SA 200 0 6 1 s' (Or.inl rfl),
    H.2.1 SA 200 5 6 1 (by decide) (by decide),
    H.2.2.1 SA 5 6 (by decide), ?_, ?_⟩
  · rw [H.2.2.2 SZK 5 6 (by decide)]
    rfl
  · rw [H.2.2.2 SZK 5 7 (by decide)]
    rfl

end DeepfakeVerification
